import Mathlib

/-!
# Verification of the Game-Script-Assistant orchestration layer

A shallow embedding of the TypeScript source of the Game-Script-Assistant
repository, together with theorems settling the specification claims.

The embedding covers:
* the retry wrapper `withRetry` of `src/services/geminiService.ts`
  (and the variant in `src/types.ts`), including the client-null check
  and the backoff sleeps;
* the persistence layer (`loadProjectData`, `handleFileSelected`,
  `handleSaveProject`) of the App component;
* the schema-shape checks of `generateCharacters` and
  `generateScriptOutline`, modelled from the JSON value the provider
  response parses to;
* the translation provider `t` function, the translation cache effect;
* the character-roster update (`handleSubmit` + `handleCharactersGenerated`);
* the autosave debounce effect.

Asynchrony is single-threaded in the source (one promise chain per call),
so every async function is embedded as a pure function from its inputs
(with the outcome of each external call supplied as an explicit argument)
to an `Except` result, together with explicit counters for the
observable effects (invocations, sleeps, fetches, storage writes).
-/

namespace GSA

/-! ## The retry wrapper

`src/services/geminiService.ts` lines 29–49:

```ts
const withRetry = async <T>(apiCall: () => Promise<T>, maxRetries = 3, initialDelay = 1000): Promise<T> => {
    if (!ai) { throw new Error("AI Client not initialized. ..."); }
    let lastError: unknown;
    for (let i = 0; i < maxRetries; i++) {
        try { return await apiCall(); }
        catch (error) {
            lastError = error;
            if (i < maxRetries - 1) {
                const delay = initialDelay * Math.pow(2, i) + (Math.random() * 1000);
                await new Promise(resolve => setTimeout(resolve, delay));
            }
        }
    }
    throw lastError;
};
```

The zero-argument async operation is embedded as a function
`op : Nat → Except ε α` giving the outcome of its `i`-th invocation
(the source operation is re-invoked each loop iteration; its outcomes
form a sequence).  `Math.random() * 1000` is embedded as an explicit
jitter sequence `jitter : Nat → Nat`.  The run records the result, the
number of invocations of `op`, and the list of sleep durations, in order.
-/

/-- The observable outcome of one `withRetry` run: the returned value or
thrown error (`none` models the `undefined` initial value of `lastError`,
thrown when the loop body never ran), the number of times the operation
was invoked, and the backoff sleep durations in order. -/
structure RetryRun (ε α : Type) where
  result : Except (Option ε) α
  calls : Nat
  sleeps : List Nat

/-- The retry loop of `withRetry` (`for (let i = 0; i < maxRetries; i++)`),
entered at iteration `i` with accumulated `lastError`, invocation count and
sleep list. -/
def withRetryLoop (op : Nat → Except ε α) (maxRetries initialDelay : Nat)
    (jitter : Nat → Nat) (i : Nat) (lastError : Option ε)
    (calls : Nat) (sleeps : List Nat) : RetryRun ε α :=
  if _h : i < maxRetries then
    match op i with
    | .ok a => ⟨.ok a, calls + 1, sleeps⟩
    | .error e =>
        if i < maxRetries - 1 then
          withRetryLoop op maxRetries initialDelay jitter (i + 1) (some e)
            (calls + 1) (sleeps ++ [initialDelay * 2 ^ i + jitter i])
        else
          withRetryLoop op maxRetries initialDelay jitter (i + 1) (some e)
            (calls + 1) sleeps
  else
    ⟨.error lastError, calls, sleeps⟩
termination_by maxRetries - i

/-- `withRetry` of `src/types.ts` (no client check; the `src/types.ts`
variant sleeps `delay * 2^i` with no jitter, which is the same loop with a
zero jitter sequence). -/
def withRetry (op : Nat → Except ε α) (maxRetries initialDelay : Nat)
    (jitter : Nat → Nat) : RetryRun ε α :=
  withRetryLoop op maxRetries initialDelay jitter 0 none 0 []

/-- Error type of a guarded `withRetry` call in `src/services/geminiService.ts`:
either the "AI Client not initialized" error thrown before the loop, or the
(re-thrown, unwrapped) error of the underlying operation. -/
inductive ExecError (ε : Type) where
  | notInitialized
  | apiError (e : Option ε)

/-- A `withRetry` run in `src/services/geminiService.ts`, including the
`if (!ai) throw` guard.  `client` is the module-level `ai` variable. -/
def withRetryChecked (client : Option γ) (op : Nat → Except ε α)
    (maxRetries initialDelay : Nat) (jitter : Nat → Nat) :
    RetryRun (ExecError ε) α :=
  match client with
  | none => ⟨.error (some .notInitialized), 0, []⟩
  | some _ =>
      let r := withRetry op maxRetries initialDelay jitter
      ⟨r.result.mapError (fun e => some (.apiError e)), r.calls, r.sleeps⟩

/-- `initializeAi` of `src/services/geminiService.ts` lines 13–23: the
resulting module-level client, `none` when no usable (non-empty after
trimming) credential is available from the argument or the environment.
JS falsiness of the optional `apiKey` string identifies `none` and `""`.
`finalApiKeyOf` is `apiKey || process.env.API_KEY` (line 14). -/
def finalApiKeyOf (apiKey envKey : Option String) : Option String :=
  match apiKey with
  | some k => if k = "" then envKey else some k
  | none => envKey

def initializeAi (apiKey : Option String) (envKey : Option String) :
    Option String :=
  match finalApiKeyOf apiKey envKey with
  | none => none
  | some k => if k.trim = "" then none else some k

/-! ### Lemmas about the retry loop -/

theorem withRetryLoop_succeed (op : Nat → Except ε α) (maxRetries initialDelay : Nat)
    (jitter : Nat → Nat) :
    ∀ i lastError calls sleeps k (v : α),
      i ≤ k → k < maxRetries →
      (∀ j, i ≤ j → j < k → ∃ e, op j = .error e) →
      op k = .ok v →
      (withRetryLoop op maxRetries initialDelay jitter i lastError calls sleeps).result
          = .ok v ∧
      (withRetryLoop op maxRetries initialDelay jitter i lastError calls sleeps).calls
          = calls + (k - i) + 1 := by
  intro i
  induction' hw : maxRetries - i with n ih generalizing i
  · intro lastError calls sleeps k v hik hk hfail hok
    omega
  · intro lastError calls sleeps k v hik hk hfail hok
    have hi : i < maxRetries := by omega
    rcases Nat.eq_or_lt_of_le hik with heq | hlt
    · subst heq
      rw [withRetryLoop, dif_pos hi, hok]
      exact ⟨rfl, by dsimp only; omega⟩
    · obtain ⟨e, he⟩ := hfail i le_rfl hlt
      rw [withRetryLoop, dif_pos hi, he]
      dsimp only
      have hrec : ∀ sl,
          (withRetryLoop op maxRetries initialDelay jitter (i+1) (some e) (calls+1) sl).result = .ok v ∧
          (withRetryLoop op maxRetries initialDelay jitter (i+1) (some e) (calls+1) sl).calls
            = (calls + 1) + (k - (i+1)) + 1 := by
        intro sl
        exact ih (i+1) (by omega) (some e) (calls+1) sl k v (by omega) hk
          (fun j hj1 hj2 => hfail j (by omega) hj2) hok
      by_cases hlast : i < maxRetries - 1
      · rw [if_pos hlast]
        refine ⟨(hrec _).1, ?_⟩
        rw [(hrec _).2]; omega
      · rw [if_neg hlast]
        refine ⟨(hrec _).1, ?_⟩
        rw [(hrec _).2]; omega

theorem withRetryLoop_allFail (op : Nat → Except ε α)
    (maxRetries initialDelay : Nat) (jitter : Nat → Nat) (err : Nat → ε) :
    ∀ i lastError calls sleeps,
      i ≤ maxRetries →
      (∀ j, i ≤ j → j < maxRetries → op j = .error (err j)) →
      (withRetryLoop op maxRetries initialDelay jitter i lastError calls sleeps
        : RetryRun ε α).result
          = .error (if i < maxRetries then some (err (maxRetries - 1)) else lastError) ∧
      (withRetryLoop op maxRetries initialDelay jitter i lastError calls sleeps).calls
          = calls + (maxRetries - i) := by
  intro i
  induction' hw : maxRetries - i with n ih generalizing i
  · intro lastError calls sleeps hile hfail
    have hi : ¬ i < maxRetries := by omega
    rw [withRetryLoop, dif_neg hi, if_neg hi]
    exact ⟨rfl, by dsimp only; omega⟩
  · intro lastError calls sleeps hile hfail
    have hi : i < maxRetries := by omega
    rw [withRetryLoop, dif_pos hi, hfail i le_rfl hi, if_pos hi]
    dsimp only
    have hrec : ∀ sl,
        (withRetryLoop op maxRetries initialDelay jitter (i+1) (some (err i)) (calls+1) sl
          : RetryRun ε α).result
            = .error (if i + 1 < maxRetries then some (err (maxRetries - 1))
                      else some (err i)) ∧
        (withRetryLoop op maxRetries initialDelay jitter (i+1) (some (err i)) (calls+1) sl).calls
            = (calls + 1) + (maxRetries - (i+1)) := by
      intro sl
      have h := ih (i+1) (by omega) (some (err i)) (calls+1) sl (by omega)
        (fun j hj1 hj2 => hfail j (by omega) hj2)
      refine ⟨h.1, ?_⟩
      rw [h.2]; omega
    have hlasteq : ¬ i + 1 < maxRetries → i = maxRetries - 1 := by omega
    by_cases hlast : i < maxRetries - 1
    · rw [if_pos hlast]
      refine ⟨?_, ?_⟩
      · rw [(hrec _).1]
        have : i + 1 < maxRetries := by omega
        rw [if_pos this]
      · rw [(hrec _).2]; omega
    · rw [if_neg hlast]
      refine ⟨?_, ?_⟩
      · rw [(hrec _).1]
        by_cases h2 : i + 1 < maxRetries
        · rw [if_pos h2]
        · rw [if_neg h2, hlasteq h2]
      · rw [(hrec _).2]; omega

end GSA

/-- **C1.** The retry wrapper `withRetry`: if the operation fails exactly `k`
times and then succeeds with `k <` max-retries `N`, the wrapper returns the
success value after exactly `k + 1` invocations; if the operation fails on
every invocation (and `N ≥ 1`), the wrapper invokes it exactly `N` times and
then throws the last observed error unchanged (the very error value of the
final invocation, unwrapped). -/
theorem C1_withRetry_policy (ε α : Type) (op : Nat → Except ε α)
    (N initialDelay : Nat) (jitter : Nat → Nat) (k : Nat) (v : α)
    (err : Nat → ε) :
    (k < N → (∀ j, j < k → op j = .error (err j)) → op k = .ok v →
      (GSA.withRetry op N initialDelay jitter).result = .ok v ∧
      (GSA.withRetry op N initialDelay jitter).calls = k + 1) ∧
    (0 < N → (∀ j, j < N → op j = .error (err j)) →
      (GSA.withRetry op N initialDelay jitter).result = .error (some (err (N - 1))) ∧
      (GSA.withRetry op N initialDelay jitter).calls = N) := by
  constructor
  · intro hk hfail hok
    have := GSA.withRetryLoop_succeed op N initialDelay jitter 0 none 0 [] k v
      (Nat.zero_le k) hk (fun j _ hj => ⟨err j, hfail j hj⟩) hok
    simpa [GSA.withRetry] using this
  · intro hN hfail
    have := GSA.withRetryLoop_allFail op N initialDelay jitter err 0 none 0 []
      (Nat.zero_le N) (fun j _ hj => hfail j hj)
    rw [GSA.withRetry]
    refine ⟨?_, ?_⟩
    · rw [this.1, if_pos hN]
    · rw [this.2]; omega

/-- Witness for C1 at a concrete run: max retries 3, failing twice with
distinct error codes then succeeding, and a run failing all three times. -/
theorem C1_withRetry_policy_witness :
    ((GSA.withRetry (fun i => if i < 2 then Except.error i else Except.ok "done")
        3 1000 (fun _ => 7)).result = .ok "done" ∧
      (GSA.withRetry (fun i => if i < 2 then Except.error i else Except.ok "done")
        3 1000 (fun _ => 7)).calls = 2 + 1) ∧
    ((GSA.withRetry (fun i => (Except.error i : Except Nat String))
        3 1000 (fun _ => 7)).result = .error (some 2) ∧
      (GSA.withRetry (fun i => (Except.error i : Except Nat String))
        3 1000 (fun _ => 7)).calls = 3) := by
  constructor
  · exact (C1_withRetry_policy Nat String
      (fun i => if i < 2 then Except.error i else Except.ok "done")
      3 1000 (fun _ => 7) 2 "done" (fun j => j)).1 (by decide)
      (fun j hj => by interval_cases j <;> rfl) (by rfl)
  · exact (C1_withRetry_policy Nat String
      (fun i => (Except.error i : Except Nat String))
      3 1000 (fun _ => 7) 2 "done" (fun j => j)).2 (by decide)
      (fun j hj => rfl)

/-- **C4.** If the client has never been configured with a usable (non-empty
after trimming) credential — so the module-level client produced by
`initializeAi` is `null` — then every guarded `withRetry` execution throws
the "AI Client not initialized" error immediately: the underlying operation
is invoked zero times and no backoff sleep is performed. -/
theorem C4_notInitialized_failsFast (ε α : Type) (op : Nat → Except ε α)
    (N initialDelay : Nat) (jitter : Nat → Nat)
    (apiKey envKey : Option String)
    (hunusable : ∀ k, GSA.finalApiKeyOf apiKey envKey = some k → k.trim = "") :
    GSA.initializeAi apiKey envKey = none ∧
    GSA.withRetryChecked (GSA.initializeAi apiKey envKey) op N initialDelay jitter
      = ⟨.error (some .notInitialized), 0, []⟩ := by
  have hnone : GSA.initializeAi apiKey envKey = none := by
    rw [GSA.initializeAi]
    cases hfk : GSA.finalApiKeyOf apiKey envKey with
    | none => rfl
    | some k =>
        show (if k.trim = "" then (none : Option String) else some k) = none
        rw [if_pos (hunusable k hfk)]
  exact ⟨hnone, by rw [hnone]; rfl⟩

/-- Witness for C4: with an empty credential argument and no environment
key, the client is `null` and a concrete always-succeeding operation is
rejected with the not-initialized error, zero invocations and zero sleeps. -/
theorem C4_notInitialized_failsFast_witness :
    GSA.initializeAi (some "") none = none ∧
    GSA.withRetryChecked (GSA.initializeAi (some "") none)
        (fun _ => (Except.ok 42 : Except String Nat)) 3 1000 (fun _ => 0)
      = ⟨.error (some .notInitialized), 0, []⟩ :=
  C4_notInitialized_failsFast String Nat (fun _ => Except.ok 42) 3 1000
    (fun _ => 0) (some "") none
    (fun k hk => by
      rw [show GSA.finalApiKeyOf (some "") none = none from rfl] at hk
      exact absurd hk (by intro h; cases h))

namespace GSA

/-! ## Data model and persistence layer

From `src/types.ts` lines 1–35 and the App component
(`src/unnamed/part_001` lines 12–125, 153–213; `src/App.tsx` lines 12–115).
The persisted document is the object `JSON.stringify`/`JSON.parse` carry
between `handleSaveProject` and `loadProjectData`; fields the loader
defends with `|| default` are `Option`-valued in the document to model
their possible absence in a hand-edited file. -/

inductive GameEngine where
  | unity | unreal | godot
  deriving DecidableEq, Repr

inductive Language where
  | en | zh
  deriving DecidableEq, Repr

inductive ScriptPieceType where
  | scene | dialogue | action | full
  deriving DecidableEq, Repr

structure FrameworkInputs where
  theme : String
  narrative : String
  art : String
  interaction : String
  systems : String
  audio : String
  experience : String
  deriving DecidableEq, Repr

structure Character where
  name : String
  backstory : String
  personality : List String
  appearance : String
  key_motivation : String
  deriving DecidableEq, Repr

structure ScriptPiece where
  id : Nat
  type : ScriptPieceType
  content : String
  deriving DecidableEq, Repr

structure SavedProject where
  version : Nat
  projectName : String
  frameworkInputs : FrameworkInputs
  characters : Option (List Character)
  scriptPieces : Option (List ScriptPiece)
  gameEngine : Option GameEngine
  language : Option Language
  deriving DecidableEq, Repr

/-- The in-memory application state held in the App component's
`useState` hooks (`src/unnamed/part_001` lines 37–43). -/
structure AppState where
  projectName : String
  frameworkInputs : FrameworkInputs
  characters : List Character
  scriptPieces : List ScriptPiece
  gameEngine : GameEngine
  language : Language
  deriving DecidableEq, Repr

/-- `const APP_VERSION = 1` (`src/unnamed/part_001` line 22). -/
def APP_VERSION : Nat := 1

/-- `loadProjectData` (`src/unnamed/part_001` lines 62–75): rejects a
document whose version exceeds `APP_VERSION`, otherwise produces the new
state assigned by the six setters, with the source's `|| []` / `|| 'unity'`
/ `|| 'en'` defaults.  On the error path the function throws before any
setter runs. -/
def loadProjectData (data : SavedProject) : Except String AppState :=
  if data.version > APP_VERSION then
    .error "This project file was created with a newer version of the app and cannot be loaded."
  else
    .ok { projectName := data.projectName
          frameworkInputs := data.frameworkInputs
          characters := data.characters.getD []
          scriptPieces := data.scriptPieces.getD []
          gameEngine := data.gameEngine.getD .unity
          language := data.language.getD .en }

/-- `handleFileSelected` (`src/unnamed/part_001` lines 184–213) after the
file text has parsed: calls `loadProjectData`; the surrounding
`try/catch` leaves the current state untouched when it throws. -/
def handleFileSelected (st : AppState) (data : SavedProject) : AppState :=
  match loadProjectData data with
  | .ok s => s
  | .error _ => st

/-- `handleFileSelected` of `src/App.tsx` lines 92–104: the variant that
validates `data.version !== APP_VERSION || !data.projectName ||
!data.frameworkInputs` before running the same six setters (there is no
null `frameworkInputs` in the typed document, so that disjunct is false).
On throw the catch leaves the state untouched. -/
def handleFileSelectedApp (st : AppState) (data : SavedProject) : AppState :=
  if data.version ≠ APP_VERSION ∨ data.projectName = "" then st
  else
    { projectName := data.projectName
      frameworkInputs := data.frameworkInputs
      characters := data.characters.getD []
      scriptPieces := data.scriptPieces.getD []
      gameEngine := data.gameEngine.getD .unity
      language := data.language.getD .en }

/-- `handleSaveProject` (`src/unnamed/part_001` lines 153–178): the
document serialized on explicit save/export, carrying every state field
plus the version constant. -/
def handleSaveProject (s : AppState) : SavedProject :=
  { version := APP_VERSION
    projectName := s.projectName
    frameworkInputs := s.frameworkInputs
    characters := some s.characters
    scriptPieces := some s.scriptPieces
    gameEngine := some s.gameEngine
    language := some s.language }

end GSA

/-- **C2.** A persisted document whose `version` field is strictly greater
than the application's `APP_VERSION` constant is rejected by the loader
(`loadProjectData` throws, and the `src/App.tsx` validation likewise
fails), and the in-memory application state after the load attempt is
exactly the state from before — every field (project name, framework
inputs, characters, script pieces, engine, language) unchanged. -/
theorem C2_newer_version_rejected (st : GSA.AppState) (data : GSA.SavedProject)
    (hv : data.version > GSA.APP_VERSION) :
    (∃ msg, GSA.loadProjectData data = .error msg) ∧
    GSA.handleFileSelected st data = st ∧
    GSA.handleFileSelectedApp st data = st := by
  refine ⟨⟨"This project file was created with a newer version of the app and cannot be loaded.", ?_⟩, ?_, ?_⟩
  · rw [GSA.loadProjectData, if_pos hv]
  · rw [GSA.handleFileSelected, GSA.loadProjectData, if_pos hv]
  · rw [GSA.handleFileSelectedApp, if_pos (Or.inl (by omega))]

/-- Witness for C2: a concrete version-2 document against the version-1
application leaves a concrete state untouched. -/
theorem C2_newer_version_rejected_witness :
    (2 : Nat) > GSA.APP_VERSION ∧
    ((∃ msg, GSA.loadProjectData
        ⟨2, "Doc", ⟨"t", "n", "a", "i", "s", "au", "e"⟩, none, none, none, none⟩
        = .error msg) ∧
      GSA.handleFileSelected
        ⟨"Mine", ⟨"", "", "", "", "", "", ""⟩, [], [], .unity, .en⟩
        ⟨2, "Doc", ⟨"t", "n", "a", "i", "s", "au", "e"⟩, none, none, none, none⟩
        = ⟨"Mine", ⟨"", "", "", "", "", "", ""⟩, [], [], .unity, .en⟩ ∧
      GSA.handleFileSelectedApp
        ⟨"Mine", ⟨"", "", "", "", "", "", ""⟩, [], [], .unity, .en⟩
        ⟨2, "Doc", ⟨"t", "n", "a", "i", "s", "au", "e"⟩, none, none, none, none⟩
        = ⟨"Mine", ⟨"", "", "", "", "", "", ""⟩, [], [], .unity, .en⟩) :=
  ⟨by decide, C2_newer_version_rejected _ _ (by decide)⟩

/-- **C5.** Round trip: serializing any in-memory application state with
`handleSaveProject` and loading the resulting versioned document back with
`loadProjectData` succeeds and restores application state field-for-field
equal to the original — no field is dropped. -/
theorem C5_save_load_roundtrip (s : GSA.AppState) :
    GSA.loadProjectData (GSA.handleSaveProject s) = .ok s := by
  rw [GSA.loadProjectData, GSA.handleSaveProject, if_neg (by simp)]
  rfl

namespace GSA

/-! ## Schema-constrained response handling

`generateCharacters` (`src/services/geminiService.ts` lines 123–141) and
`generateScriptOutline` (`src/types.ts` lines 208–226).  The provider's
response text is modelled at the stage the claims speak about: either the
text was empty, or `JSON.parse` threw a `SyntaxError`, or it produced a
JSON value.  JSON values are a standard inductive; JS object property
lookup returns the value of the key's occurrence (duplicate keys do not
occur in provider responses conforming to a schema and are not modelled —
the first occurrence wins). -/

inductive Json where
  | null
  | bool (b : Bool)
  | num (n : Int)
  | str (s : String)
  | arr (xs : List Json)
  | obj (kvs : List (String × Json))

/-- JS property lookup on an object literal's field list. -/
def objGet : List (String × Json) → String → Option Json
  | [], _ => none
  | (k, v) :: rest, key => if k = key then some v else objGet rest key

/-- What the provider's response text gave after `response.text?.trim()`
and fence-stripping: empty text, a `SyntaxError` from `JSON.parse`, or a
parsed JSON value. -/
inductive ProviderText where
  | empty
  | syntaxError
  | parsed (j : Json)

/-- A thrown JS value as the two call sites distinguish them: a
`SyntaxError` (from `JSON.parse`), a `TypeError` (property access on a
parsed `null`), or an `Error` carrying a message. -/
inductive JsError where
  | syntaxError
  | typeError
  | error (msg : String)

/-- The shared body of both try blocks after the provider call: empty-text
check, parse, then
`if (!parsed.KEY || !Array.isArray(parsed.KEY)) throw new Error(invalidMsg)`.
A non-object parsed value gives `undefined` for `parsed.KEY` (hence the
invalid-format throw), except `null`, where property access throws a
`TypeError`.  Arrays are truthy in JS, so a present array key always
passes both tests. -/
def parseArrayKeyBody (key emptyMsg invalidMsg : String) (r : ProviderText) :
    Except JsError (List Json) :=
  match r with
  | .empty => .error (.error emptyMsg)
  | .syntaxError => .error .syntaxError
  | .parsed j =>
    match j with
    | .obj kvs =>
      match objGet kvs key with
      | some (.arr xs) => .ok xs
      | _ => .error (.error invalidMsg)
    | .null => .error .typeError
    | _ => .error (.error invalidMsg)

/-- `generateCharacters` from the response onwards
(`src/services/geminiService.ts` lines 123–141): the catch block replaces
a `SyntaxError` with the user-facing invalid-format error and rethrows
every other error unchanged. -/
def generateCharactersResult (r : ProviderText) : Except JsError (List Json) :=
  match parseArrayKeyBody "characters" "API returned an empty response."
      "API returned an invalid format. Expected an object with a 'characters' array." r with
  | .ok xs => .ok xs
  | .error .syntaxError =>
      .error (.error "Failed to generate character profile. The AI returned an invalid format.")
  | .error e => .error e

/-- `generateScriptOutline` from the response onwards (`src/types.ts`
lines 208–226): the catch block replaces a `SyntaxError` with the
user-facing invalid-format error and replaces EVERY other error with the
generic `"Failed to generate the script outline."`. -/
def generateScriptOutlineResult (r : ProviderText) : Except JsError (List Json) :=
  match parseArrayKeyBody "outline" "API returned an empty response for the outline."
      "API returned an invalid format for the outline." r with
  | .ok xs => .ok xs
  | .error .syntaxError =>
      .error (.error "Failed to generate script outline. The AI returned an invalid format.")
  | .error _ => .error (.error "Failed to generate the script outline.")

end GSA

/-- **C3 counterexample.** The claim fails for `generateScriptOutline`: on a
response that is valid JSON (here the object `{"wrong": "x"}`) but lacks
the required `outline` array, the call rejects with the generic
`"Failed to generate the script outline."` error — the catch block has
replaced the shape error — which is neither the shape error thrown inside
the try block nor the distinct invalid-format message reserved for
`SyntaxError`s, so a UI cannot distinguish it from a network failure. -/
theorem C3_counterexample :
    GSA.generateScriptOutlineResult
        (.parsed (.obj [("wrong", GSA.Json.str "x")]))
      = .error (.error "Failed to generate the script outline.") ∧
    ("Failed to generate the script outline." ≠
        "API returned an invalid format for the outline.") ∧
    ("Failed to generate the script outline." ≠
        "Failed to generate script outline. The AI returned an invalid format.") :=
  ⟨rfl, by decide, by decide⟩

/-- **C3 as amended.** On a response that is valid JSON but whose parsed
object lacks the required array key (or has it bound to a non-array), both
schema-constrained calls reject — neither ever resolves, so no empty or
partial result is produced — but only `generateCharacters` rejects with
the distinct invalid-format response-shape error; `generateScriptOutline`
rejects with the generic `"Failed to generate the script outline."`
message because its catch block rewraps every non-`SyntaxError` error. -/
theorem C3_shape_error_behaviour (kvsC kvsO : List (String × GSA.Json))
    (hc : ∀ xs, GSA.objGet kvsC "characters" ≠ some (.arr xs))
    (ho : ∀ xs, GSA.objGet kvsO "outline" ≠ some (.arr xs)) :
    GSA.generateCharactersResult (.parsed (.obj kvsC))
      = .error (.error "API returned an invalid format. Expected an object with a 'characters' array.") ∧
    GSA.generateScriptOutlineResult (.parsed (.obj kvsO))
      = .error (.error "Failed to generate the script outline.") := by
  constructor
  · rw [GSA.generateCharactersResult, GSA.parseArrayKeyBody]
    cases hg : GSA.objGet kvsC "characters" with
    | none => rfl
    | some v =>
      cases v with
      | arr xs => exact absurd hg (hc xs)
      | null => rfl
      | bool b => rfl
      | num n => rfl
      | str s => rfl
      | obj kvs => rfl
  · rw [GSA.generateScriptOutlineResult, GSA.parseArrayKeyBody]
    cases hg : GSA.objGet kvsO "outline" with
    | none => rfl
    | some v =>
      cases v with
      | arr xs => exact absurd hg (ho xs)
      | null => rfl
      | bool b => rfl
      | num n => rfl
      | str s => rfl
      | obj kvs => rfl

/-- Witness for the amended C3 at the empty object `{}`, which lacks both
required keys. -/
theorem C3_shape_error_behaviour_witness :
    GSA.generateCharactersResult (.parsed (.obj []))
      = .error (.error "API returned an invalid format. Expected an object with a 'characters' array.") ∧
    GSA.generateScriptOutlineResult (.parsed (.obj []))
      = .error (.error "Failed to generate the script outline.") :=
  C3_shape_error_behaviour [] []
    (fun xs h => by cases h) (fun xs h => by cases h)

namespace GSA

/-! ## The translation function

`src/i18n/I18nProvider.tsx` lines 66–72:

```ts
const t = useCallback(
  (key: string): string => {
    return translations?.[key] || key;
  },
  [translations]
);
```

`translations` is the component state: `null` while the dictionary is
still loading, a key→string record afterwards.  `?.` yields `undefined`
on a `null` dictionary or a missing key, and `||` falls through to `key`
on any falsy lookup — `undefined` or the empty string. -/

/-- Lookup in a loaded dictionary. -/
def dictGet : List (String × String) → String → Option String
  | [], _ => none
  | (k, v) :: rest, key => if k = key then some v else dictGet rest key

/-- The `t` function: `translations?.[key] || key`. -/
def t (translations : Option (List (String × String))) (key : String) :
    String :=
  match translations with
  | none => key
  | some dict =>
    match dictGet dict key with
    | some v => if v = "" then key else v
    | none => key

/-! ## The character-roster update

`handleSubmit` of `src/components/CharacterGenerator.tsx` lines 49–66
assigns each provider-returned character profile a fresh
`crypto.randomUUID()` identifier:

```ts
const newCharacters = newCharacterData.map(c => ({ ...c, id: crypto.randomUUID() }));
onCharactersGenerated(newCharacters);
```

and `handleCharactersGenerated` (`src/unnamed/part_001` lines 127–135)
appends them to the roster:

```ts
setCharacters(prev => [...prev, ...newCharacters]);
```

`crypto.randomUUID()` is a fresh-identifier oracle: its successive return
values are modelled as a sequence `uuid : Nat → String`, with freshness
(injectivity and avoidance of existing identifiers) as hypotheses — that
is the guarantee the Web Crypto API provides that the code relies on. -/

/-- A provider-returned character profile (`Omit<Character, 'id'>` per the
`characterSchema` of `src/services/geminiService.ts`). -/
structure GenCharacterData where
  name : String
  appearance : String
  backstory : String
  relationships : String
  deriving DecidableEq, Repr

/-- A roster character: a profile plus its assigned identifier. -/
structure GenCharacter where
  id : String
  profile : GenCharacterData
  deriving DecidableEq, Repr

/-- `newCharacterData.map(c => ({ ...c, id: crypto.randomUUID() }))`:
the `i`-th element of the batch receives the `i`-th oracle value (the
`n`-th call of `crypto.randomUUID()` during the map). -/
def assignIds (uuid : Nat → String) : Nat → List GenCharacterData → List GenCharacter
  | _, [] => []
  | i, c :: cs => ⟨uuid i, c⟩ :: assignIds uuid (i + 1) cs

/-- `handleCharactersGenerated`'s roster update:
`setCharacters(prev => [...prev, ...newCharacters])`. -/
def handleCharactersGenerated (prev newCharacters : List GenCharacter) :
    List GenCharacter :=
  prev ++ newCharacters

theorem assignIds_length (uuid : Nat → String) :
    ∀ i cs, (assignIds uuid i cs).length = cs.length := by
  intro i cs
  induction cs generalizing i with
  | nil => rfl
  | cons c cs ih => simp [assignIds, ih]

theorem assignIds_profiles (uuid : Nat → String) :
    ∀ i cs, (assignIds uuid i cs).map GenCharacter.profile = cs := by
  intro i cs
  induction cs generalizing i with
  | nil => rfl
  | cons c cs ih => simp [assignIds, ih]

theorem assignIds_mem_id (uuid : Nat → String) :
    ∀ i cs ch, ch ∈ assignIds uuid i cs →
      ∃ j, i ≤ j ∧ j < i + cs.length ∧ ch.id = uuid j := by
  intro i cs
  induction cs generalizing i with
  | nil => intro ch h; cases h
  | cons c cs ih =>
    intro ch h
    rcases List.mem_cons.mp h with heq | hmem
    · exact ⟨i, le_rfl, by simp, by rw [heq]⟩
    · obtain ⟨j, hj1, hj2, hj3⟩ := ih (i + 1) ch hmem
      exact ⟨j, by omega, by simp; omega, hj3⟩

theorem assignIds_ids_nodup (uuid : Nat → String) :
    ∀ i cs,
      (∀ a b, i ≤ a → a < i + cs.length → i ≤ b → b < i + cs.length →
        uuid a = uuid b → a = b) →
      ((assignIds uuid i cs).map GenCharacter.id).Nodup := by
  intro i cs
  induction cs generalizing i with
  | nil => intro hinj; exact List.nodup_nil
  | cons c cs ih =>
    intro hinj
    rw [assignIds]
    refine List.nodup_cons.mpr ⟨?_, ih (i + 1) ?_⟩
    · intro hmem
      obtain ⟨ch, hch, hid⟩ := List.mem_map.mp hmem
      obtain ⟨j, hj1, hj2, hj3⟩ := assignIds_mem_id uuid (i + 1) cs ch hch
      rw [hj3] at hid
      have := hinj j i (by omega)
        (by simp only [List.length_cons] at hj2 ⊢; omega) (by omega)
        (by simp only [List.length_cons]; omega) hid
      omega
    · intro a b ha1 ha2 hb1 hb2 hab
      exact hinj a b (by omega)
        (by simp only [List.length_cons] at ha2 ⊢; omega) (by omega)
        (by simp only [List.length_cons] at hb2 ⊢; omega) hab

end GSA

/-- **C6.** The translation function `t` is total (never throws) and for a
missing key — the dictionary still loading (`null`) or the key absent —
returns the key string itself; moreover every result of `t` is either the
key itself or a non-empty value actually present in the dictionary, so `t`
never produces a value (such as the string rendering of JS `undefined`)
out of thin air. -/
theorem C6_t_missing_key_fallback
    (translations : Option (List (String × String))) (key : String) :
    ((translations = none ∨
        ∃ dict, translations = some dict ∧ GSA.dictGet dict key = none) →
      GSA.t translations key = key) ∧
    (GSA.t translations key = key ∨
      ∃ dict v, translations = some dict ∧ GSA.dictGet dict key = some v ∧
        v ≠ "" ∧ GSA.t translations key = v) := by
  constructor
  · rintro (hnone | ⟨dict, hdict, hget⟩)
    · rw [hnone, GSA.t]
    · rw [hdict, GSA.t, hget]
  · cases htr : translations with
    | none => exact Or.inl (by rw [GSA.t])
    | some dict =>
      cases hget : GSA.dictGet dict key with
      | none => exact Or.inl (by rw [GSA.t, hget])
      | some v =>
        by_cases hv : v = ""
        · exact Or.inl (by rw [GSA.t, hget]; dsimp only; rw [if_pos hv])
        · exact Or.inr ⟨dict, v, rfl, hget, hv,
            by rw [GSA.t, hget]; dsimp only; rw [if_neg hv]⟩

/-- Witness for C6: a concrete loaded dictionary without the key, and the
not-yet-loaded state, both return the key. -/
theorem C6_t_missing_key_fallback_witness :
    GSA.t (some [("title", "Titel")]) "missingKey" = "missingKey" ∧
    GSA.t none "missingKey" = "missingKey" :=
  ⟨(C6_t_missing_key_fallback (some [("title", "Titel")]) "missingKey").1
      (Or.inr ⟨[("title", "Titel")], rfl, by decide⟩),
    (C6_t_missing_key_fallback none "missingKey").1 (Or.inl rfl)⟩

/-- **C10.** A loaded dictionary that maps a key to the empty string is
indistinguishable from a missing key at the public interface: `t` returns
the key itself, not the empty string (`""` is falsy, so
`translations?.[key] || key` falls through). -/
theorem C10_empty_translation_falls_back
    (dict : List (String × String)) (key : String)
    (h : GSA.dictGet dict key = some "") :
    GSA.t (some dict) key = key := by
  rw [GSA.t, h]
  dsimp only
  rw [if_pos rfl]

/-- Witness for C10 at a concrete dictionary with an empty-string value. -/
theorem C10_empty_translation_falls_back_witness :
    GSA.dictGet [("greeting", "")] "greeting" = some "" ∧
    GSA.t (some [("greeting", "")]) "greeting" = "greeting" :=
  ⟨by decide, C10_empty_translation_falls_back [("greeting", "")] "greeting" (by decide)⟩

/-- **C7.** Submitting a character-generation batch for which the provider
returned `n` profiles grows the roster by exactly those `n` entries: the
pre-existing entries are preserved unchanged in place as a prefix, each new
entry keeps its provider profile and carries a freshly generated
identifier, the new identifiers are pairwise distinct, and none collides
with a pre-existing identifier. (`crypto.randomUUID()` is modelled as a
fresh-identifier oracle `uuid`, injective and avoiding the existing ids.) -/
theorem C7_roster_batch_growth (prev : List GSA.GenCharacter)
    (newData : List GSA.GenCharacterData) (uuid : Nat → String)
    (hinj : ∀ a b, a < newData.length → b < newData.length →
      uuid a = uuid b → a = b)
    (hfresh : ∀ j, j < newData.length → ∀ ch, ch ∈ prev → uuid j ≠ ch.id) :
    GSA.handleCharactersGenerated prev (GSA.assignIds uuid 0 newData)
        = prev ++ GSA.assignIds uuid 0 newData ∧
    (GSA.handleCharactersGenerated prev (GSA.assignIds uuid 0 newData)).length
        = prev.length + newData.length ∧
    (GSA.handleCharactersGenerated prev (GSA.assignIds uuid 0 newData)).take
        prev.length = prev ∧
    (GSA.assignIds uuid 0 newData).map GSA.GenCharacter.profile = newData ∧
    ((GSA.assignIds uuid 0 newData).map GSA.GenCharacter.id).Nodup ∧
    (∀ ch, ch ∈ GSA.assignIds uuid 0 newData → ∀ old, old ∈ prev →
      ch.id ≠ old.id) := by
  refine ⟨rfl, ?_, ?_, GSA.assignIds_profiles uuid 0 newData,
    GSA.assignIds_ids_nodup uuid 0 newData
      (fun a b _ ha _ hb hab => hinj a b (by omega) (by omega) hab), ?_⟩
  · rw [GSA.handleCharactersGenerated, List.length_append,
      GSA.assignIds_length]
  · rw [GSA.handleCharactersGenerated, List.take_left]
  · intro ch hch old hold
    obtain ⟨j, _, hjlt, hj⟩ := GSA.assignIds_mem_id uuid 0 newData ch hch
    rw [hj]
    exact hfresh j (by omega) old hold

/-- Witness for C7: a two-profile batch ("a grizzled smith", "a cheerful
bard") against a one-character roster, with a concrete injective id
oracle. -/
theorem C7_roster_batch_growth_witness :
    GSA.handleCharactersGenerated
        [⟨"id-existing", ⟨"Old Hero", "tall", "veteran", "none"⟩⟩]
        (GSA.assignIds (fun i => "uuid-" ++ toString i) 0
          [⟨"Smith", "grizzled", "forged blades", "knows the bard"⟩,
            ⟨"Bard", "cheerful", "sings tales", "knows the smith"⟩])
      = [⟨"id-existing", ⟨"Old Hero", "tall", "veteran", "none"⟩⟩,
          ⟨"uuid-0", ⟨"Smith", "grizzled", "forged blades", "knows the bard"⟩⟩,
          ⟨"uuid-1", ⟨"Bard", "cheerful", "sings tales", "knows the smith"⟩⟩] ∧
    (GSA.handleCharactersGenerated
        [⟨"id-existing", ⟨"Old Hero", "tall", "veteran", "none"⟩⟩]
        (GSA.assignIds (fun i => "uuid-" ++ toString i) 0
          [⟨"Smith", "grizzled", "forged blades", "knows the bard"⟩,
            ⟨"Bard", "cheerful", "sings tales", "knows the smith"⟩])).length
      = 1 + 2 := by
  constructor
  · rfl
  · exact (C7_roster_batch_growth
      [⟨"id-existing", ⟨"Old Hero", "tall", "veteran", "none"⟩⟩]
      [⟨"Smith", "grizzled", "forged blades", "knows the bard"⟩,
        ⟨"Bard", "cheerful", "sings tales", "knows the smith"⟩]
      (fun i => "uuid-" ++ toString i)
      (fun a b ha hb h => by
        simp only [List.length_cons, List.length_nil] at ha hb
        interval_cases a <;> interval_cases b <;>
          first
          | rfl
          | exact absurd h (by decide))
      (fun j hj ch hch => by
        simp only [List.length_cons, List.length_nil] at hj
        interval_cases j <;>
          (simp only [List.mem_singleton] at hch; rw [hch]; decide))).2.1

namespace GSA

/-! ## The translation cache effect

`src/i18n/I18nProvider.tsx` lines 7 and 27–64.  The module-level
`translationsCache` is a map from language code to loaded dictionary.
Each provider mount (and each language change) runs `loadTranslations`:
a cache hit sets component state from the cache and issues no fetch; a
miss issues one fetch; on success the dictionary is written to the cache
(line 47) and to component state; on failure only the component state is
set to `{}` (line 54) — the catch block does NOT write the cache.  One
effect run is embedded as a cache transition together with the number of
fetches it issued and the resulting component `translations` state. -/

/-- The outcome of the `fetch` of `./i18n/locales/LANG.json`: the parsed
dictionary, or any failure (non-ok status, network error, parse error). -/
inductive FetchOutcome where
  | success (dict : List (String × String))
  | failure

/-- One run of the `loadTranslations` effect body against the module-level
cache: returns the cache afterwards, the number of fetches issued by this
run, and the component `translations` state it sets. -/
def loadTranslations (cache : Language → Option (List (String × String)))
    (lang : Language) (outcome : FetchOutcome) :
    (Language → Option (List (String × String))) × Nat ×
      Option (List (String × String)) :=
  match cache lang with
  | some d => (cache, 0, some d)
  | none =>
    match outcome with
    | .success d => (Function.update cache lang (some d), 1, some d)
    | .failure => (cache, 1, some [])

/-- A sequence of effect runs (mounts / language switches) starting from a
given cache: the final cache and, per language, the total number of
fetches issued for it. -/
def loadTranslationsRun (cache : Language → Option (List (String × String))) :
    List (Language × FetchOutcome) →
      (Language → Option (List (String × String))) × (Language → Nat)
  | [] => (cache, fun _ => 0)
  | (lang, o) :: rest =>
      let s := loadTranslations cache lang o
      let r := loadTranslationsRun s.1 rest
      (r.1, fun l => (if l = lang then s.2.1 else 0) + r.2 l)

/-! ## The autosave debounce effect

`src/unnamed/part_001` lines 94–125.  Every state change reruns the
effect: the cleanup clears the pending timeout, the body sets the status
to `unsaved` and schedules a write 1500 ms later; when the timer fires the
status becomes `saving`, the document is written to local storage, and a
500 ms timeout then sets the status to `saved`.  (The write is assumed to
succeed; the `catch` path that reverts the status is not exercised by the
claims.)  The timeline of a run is determined by the strictly ordered
edit times: a pending write at `e + delay` is cancelled exactly when the
next edit happens before it fires. -/

inductive SaveStatus where
  | saved | saving | unsaved
  deriving DecidableEq, Repr

/-- The local-storage write times produced by a sequence of edit times:
each edit schedules a write `delay` ms later, cancelled if another edit
occurs first. -/
def debounceWrites (delay : Nat) : List Nat → List Nat
  | [] => []
  | [e] => [e + delay]
  | e :: e' :: rest =>
      if e' < e + delay then debounceWrites delay (e' :: rest)
      else (e + delay) :: debounceWrites delay (e' :: rest)

/-- The save-status events emitted along the same timeline: `unsaved` at
each edit, and for each uncancelled timer `saving` when it fires followed
by `saved` after the `feedback` delay. -/
def autosaveStatusEvents (delay feedback : Nat) : List Nat → List (Nat × SaveStatus)
  | [] => []
  | [e] => [(e, .unsaved), (e + delay, .saving), (e + delay + feedback, .saved)]
  | e :: e' :: rest =>
      if e' < e + delay then
        (e, .unsaved) :: autosaveStatusEvents delay feedback (e' :: rest)
      else
        (e, .unsaved) :: (e + delay, .saving) :: (e + delay + feedback, .saved)
          :: autosaveStatusEvents delay feedback (e' :: rest)

end GSA

/-- **C8 is false of the code (code bug).** The effect's catch block only
sets component state (`setTranslations({})`); it never writes the
module-level `translationsCache`, although the source comment at line 52
says the empty object is set "to prevent re-fetching".  Consequently,
after a failed fetch for a language nothing is cached for it, and a second
provider mount (or a switch back to that language) issues a second fetch:
two mount effects for `en` that both fail issue two fetches for `en`,
refuting "at most one fetch per language code for the lifetime of the
process", and after the first failure the cache still holds nothing for
`en` (not an empty dictionary). -/
theorem C8_cache_refetch_after_failure :
    (GSA.loadTranslationsRun (fun _ => none)
        [(.en, .failure), (.en, .failure)]).2 .en = 2 ∧
    (GSA.loadTranslationsRun (fun _ => none) [(.en, .failure)]).1 .en
      = none ∧
    (GSA.loadTranslationsRun (fun _ => none)
        [(.en, .success [("k", "v")]), (.en, .failure)]).2 .en = 1 :=
  ⟨rfl, rfl, rfl⟩

/-- **C9.** For every burst of consecutive state edits in which each edit
follows the previous one within the 1500 ms debounce window (for example
five edits within 500 ms), the autosave effect performs exactly one write
to local storage, 1500 ms after the last edit of the burst — not one write
per edit — and the status indicator passes through `unsaved` (once per
edit), then `saving` when the timer fires, then `saved` 500 ms later. -/
theorem C9_autosave_debounce_single_write (e : Nat) (es : List Nat)
    (hchain : List.Chain' (fun a b => b < a + 1500) (e :: es)) :
    GSA.debounceWrites 1500 (e :: es)
        = [(e :: es).getLast (List.cons_ne_nil e es) + 1500] ∧
    GSA.autosaveStatusEvents 1500 500 (e :: es)
        = (e :: es).map (fun t => (t, GSA.SaveStatus.unsaved))
          ++ [((e :: es).getLast (List.cons_ne_nil e es) + 1500, .saving),
              ((e :: es).getLast (List.cons_ne_nil e es) + 1500 + 500, .saved)] := by
  induction es generalizing e with
  | nil =>
    constructor
    · rfl
    · rfl
  | cons e' rest ih =>
    have hlt : e' < e + 1500 := (List.chain'_cons.mp hchain).1
    have hchain' : List.Chain' (fun a b => b < a + 1500) (e' :: rest) :=
      (List.chain'_cons.mp hchain).2
    have hih := ih e' hchain'
    have hlast : (e :: e' :: rest).getLast (List.cons_ne_nil e (e' :: rest))
        = (e' :: rest).getLast (List.cons_ne_nil e' rest) := by
      rw [List.getLast_cons]
    constructor
    · rw [GSA.debounceWrites, if_pos hlt, hlast]
      exact hih.1
    · rw [GSA.autosaveStatusEvents, if_pos hlt, hlast, List.map_cons,
        List.cons_append, hih.2]

/-- Witness for C9: five edits at 0, 100, 200, 300 and 500 ms (a burst
inside a 500 ms window) produce exactly one write, at 2000 ms, and the
status trace `unsaved ×5, saving@2000, saved@2500`. -/
theorem C9_autosave_debounce_single_write_witness :
    GSA.debounceWrites 1500 [0, 100, 200, 300, 500] = [2000] ∧
    GSA.autosaveStatusEvents 1500 500 [0, 100, 200, 300, 500]
      = [(0, GSA.SaveStatus.unsaved), (100, .unsaved), (200, .unsaved),
          (300, .unsaved), (500, .unsaved), (2000, .saving), (2500, .saved)] := by
  have h := C9_autosave_debounce_single_write 0 [100, 200, 300, 500]
    (by simp [List.chain'_cons])
  exact ⟨h.1, h.2⟩
